import Mathlib

/-!
Verification of `src/tools/avgsize.py` (dskDitto).

The script computes the average size of the regular files beneath a
directory and prints a human-readable summary.  We give a shallow
embedding of the script together with the parts of CPython 3.11's
`pathlib` that the script relies on, and prove or refute the spec's
claims about it.

Embedding conventions:
* filesystem entries are a static inductive tree (`FSEntry`); one stat
  outcome per entry, so the two stat calls (`item.is_file()` and
  `item.stat().st_size`) agree, as they do in a race-free run;
* Python floats are modelled by exact rationals (`Rat`); the only float
  operations performed by the script (one division of two machine
  integers, comparisons, divisions by 1024, fixed-point rendering) are
  modelled by the corresponding exact operations;
* exceptions are modelled by `Except PyErr`;
* `print` calls are modelled by a list of emitted strings, in order.
-/

set_option autoImplicit false

namespace Avgsize

/-- Python exceptions that can escape `calculate_average_file_size`:
`FileNotFoundError` and `NotADirectoryError` are raised explicitly by the
script (lines 27-30); `osError` stands for any other `OSError` (for
example a `PermissionError` re-raised by `pathlib.Path.is_file` when a
per-entry `stat` fails with `EACCES`), carrying its message. -/
inductive PyErr where
  | fileNotFoundError (msg : String)
  | notADirectoryError (msg : String)
  | osError (msg : String)
deriving DecidableEq

/-- A filesystem entry as the traversal of `avgsize.py` can observe it.

* `file size`: a regular file whose `stat` succeeds with `st_size = size`;
* `dir readable children`: a real (non-symlink) directory; `readable`
  says whether `os.scandir` on it succeeds (`False` makes `pathlib`'s
  glob machinery swallow the `PermissionError` and skip its contents);
* `linkToFile size`: a symbolic link whose target is a regular file of
  the given size (`Path.is_file` follows the link and returns `True`);
* `linkToDir children`: a symbolic link to a directory (`is_file` is
  `False`; the `**` glob selector never descends through symlinks);
* `brokenLink`: an entry whose `stat` fails with an errno in pathlib's
  `_IGNORED_ERRNOS` (`ENOENT`/`ENOTDIR`/`EBADF`/`ELOOP`), e.g. a dangling
  symlink or an entry deleted mid-walk: `is_file` returns `False`;
* `special`: a socket/device/FIFO: `stat` succeeds, `S_ISREG` is false;
* `statPermDenied msg`: an entry whose `stat` fails with a
  `PermissionError` (not in `_IGNORED_ERRNOS`), so `Path.is_file`
  re-raises it with message `msg`. -/
inductive FSEntry where
  | file (size : Nat)
  | dir (readable : Bool) (children : List FSEntry)
  | linkToFile (size : Nat)
  | linkToDir (children : List FSEntry)
  | brokenLink
  | special
  | statPermDenied (msg : String)

/-- What the string passed to `calculate_average_file_size` resolves to:
nothing (`Path.exists()` is false), an existing non-directory
(`Path.is_dir()` is false), or a directory with the given readability
and children. -/
inductive PathTarget where
  | nonexistent
  | nondirectory
  | directory (readable : Bool) (children : List FSEntry)

/-- `pathlib.Path.is_file()` on an entry (CPython 3.11, lines 1262-1277 of
`pathlib.py`): `S_ISREG` of the symlink-following `stat`, hence `True`
also for symlinks pointing to regular files; a stat failure with an
ignored errno yields `False`, any other `OSError` (e.g. `EACCES`) is
re-raised. -/
def is_file : FSEntry → Except PyErr Bool
  | .file _ => .ok true
  | .dir _ _ => .ok false
  | .linkToFile _ => .ok true
  | .linkToDir _ => .ok false
  | .brokenLink => .ok false
  | .special => .ok false
  | .statPermDenied m => .error (.osError m)

/-- `item.stat().st_size` for an entry on which `is_file` returned
`ok true` (the stat already succeeded, so the second call returns the
same metadata; for a symlink the link is followed to its target). -/
def st_size : FSEntry → Nat
  | .file s => s
  | .linkToFile s => s
  | _ => 0

/-- The list of entries yielded by `target_dir.glob('**/*')` run on a
readable directory with the given children, per CPython 3.11's
`_RecursiveWildcardSelector`/`_WildcardSelector`: every entry of every
real non-symlink directory reachable from the top, where scanning an
unreadable directory raises `PermissionError` which the selectors catch
and swallow (so an unreadable subdirectory is itself yielded but its
contents are not), and `**` never descends through symlinked
directories.  pathlib emits the entries grouped by parent directory in
depth-first order of the directories; we emit each entry immediately
followed by its subtree, which is a permutation of pathlib's order (the
accumulation below is proved order-independent). -/
def globList : List FSEntry → List FSEntry
  | [] => []
  | .dir true cs :: es => .dir true cs :: (globList cs ++ globList es)
  | e :: es => e :: globList es

/-- Entries yielded by `glob('**/*')` on the top-level directory: scanning
an unreadable top directory raises `PermissionError`, caught and
swallowed inside the glob selectors, so the iteration yields nothing. -/
def topGlob (readable : Bool) (cs : List FSEntry) : List FSEntry :=
  if readable then globList cs else []

/-- The accumulation loop of `calculate_average_file_size` (lines 37-41):
`for item in target_dir.glob('**/*'): if item.is_file(): total_size +=
item.stat().st_size; file_count += 1`.  An exception raised by
`is_file` propagates. -/
def accumLoop (total_size file_count : Nat) :
    List FSEntry → Except PyErr (Nat × Nat)
  | [] => .ok (total_size, file_count)
  | e :: es =>
    match is_file e with
    | .error err => .error err
    | .ok true => accumLoop (total_size + st_size e) (file_count + 1) es
    | .ok false => accumLoop total_size file_count es

/-- The whole accumulation, started from `total_size = 0`,
`file_count = 0` (lines 32-33). -/
def accumulate (L : List FSEntry) : Except PyErr (Nat × Nat) :=
  accumLoop 0 0 L

/-- The message of the `FileNotFoundError` raised at line 28. -/
def notFoundMsg (p : String) : String :=
  "Error: Directory not found at '" ++ p ++ "'"

/-- The message of the `NotADirectoryError` raised at line 30. -/
def notDirMsg (p : String) : String :=
  "Error: Path exists but is not a directory: '" ++ p ++ "'"

/-- Shallow embedding of `calculate_average_file_size` (lines 8-48):
validate existence and directory-ness of the path, glob `'**/*'`,
accumulate sizes and count over entries classified by `is_file`, then
return `0.0` when no file was counted, else the single floating-point
division `total_size / file_count` (modelled exactly on rationals). -/
def calculate_average_file_size : PathTarget → String → Except PyErr Rat
  | .nonexistent, p => .error (.fileNotFoundError (notFoundMsg p))
  | .nondirectory, p => .error (.notADirectoryError (notDirMsg p))
  | .directory readable cs, _ =>
    match accumulate (topGlob readable cs) with
    | .error err => .error err
    | .ok (total_size, file_count) =>
      .ok (if file_count = 0 then 0
           else (total_size : Rat) / (file_count : Rat))

/-- Floor of a rational (its numerator divided by its denominator with
Euclidean integer division; the denominator is positive). -/
def ratFloor (q : Rat) : Int :=
  q.num / (q.den : Int)

/-- Rounding of a rational to the nearest integer, ties to even: the
rounding mode used by Python's fixed-point float formatting. -/
def roundHalfEven (q : Rat) : Int :=
  let f := ratFloor q
  let r := q - (f : Rat)
  if r < 1/2 then f
  else if 1/2 < r then f + 1
  else if f % 2 = 0 then f else f + 1

/-- Two-digit zero-padded decimal rendering of a number below 100. -/
def pad2 (k : Nat) : String :=
  if k < 10 then "0" ++ toString k else toString k

/-- Python's `f"{v:.2f}"` on our exact-rational model of the float `v`:
the value rounded to hundredths (ties to even) rendered with exactly two
digits after the decimal point. -/
def formatFixed2 (x : Rat) : String :=
  let n := roundHalfEven (x * 100)
  let core := toString (n.natAbs / 100) ++ "." ++ pad2 (n.natAbs % 100)
  if n < 0 then "-" ++ core else core

/-- Digit grouping for Python's `f"{v:,.2f}"`: commas inserted every
three digits of the integer part, counted from the right.  The input is
the reversed digit list; the fuel (initially the list length) only
bounds the recursion and is never exhausted before the list is. -/
def commaRev (fuel : Nat) (ds : List Char) : List Char :=
  match fuel with
  | 0 => ds
  | fuel + 1 =>
    if ds.length ≤ 3 then ds
    else ds.take 3 ++ ',' :: commaRev fuel (ds.drop 3)

/-- Python's `f"{v:,.2f}"` on the exact-rational model: like
`formatFixed2` but with the integer part comma-grouped. -/
def commaFixed2 (x : Rat) : String :=
  let n := roundHalfEven (x * 100)
  let ip := toString (n.natAbs / 100)
  let grouped := String.mk (commaRev ip.length ip.toList.reverse).reverse
  let core := grouped ++ "." ++ pad2 (n.natAbs % 100)
  if n < 0 then "-" ++ core else core

/-- The unit symbols of `format_size` (line 69): `['B', 'KB', 'MB', 'GB',
'TB']`, indexed by the loop counter `i`, which the loop keeps at most 4
(`i < len(units) - 1` guards every increment). -/
def unitName : Nat → String
  | 0 => "B"
  | 1 => "KB"
  | 2 => "MB"
  | 3 => "GB"
  | _ => "TB"

/-- The `while size_in_bytes >= 1024 and i < len(units) - 1` loop of
`format_size` (lines 71-73), dividing by 1024 and advancing the unit
index.  The fuel only bounds the recursion: the guard requires `i < 4`
and every iteration increments `i`, so starting with fuel `4` and
`i = 0` the fuel is never exhausted while the guard holds. -/
def fsLoop : Nat → Rat → Nat → Rat × Nat
  | 0, x, i => (x, i)
  | fuel + 1, x, i =>
    if 1024 ≤ x ∧ i < 4 then fsLoop fuel (x / 1024) (i + 1) else (x, i)

/-- Shallow embedding of the `format_size` helper (lines 67-74): scale
into the largest fitting unit of `B/KB/MB/GB/TB` (capped at `TB`) and
render with two decimal places, `f"{size_in_bytes:.2f} {units[i]}"`. -/
def format_size (x : Rat) : String :=
  let p := fsLoop 4 x 0
  formatFixed2 p.1 ++ " " ++ unitName p.2

/-- The line `print(f"Directory '{target_directory}' contains no
files.")` (line 64). -/
def noFilesLine (p : String) : String :=
  "Directory '" ++ p ++ "' contains no files."

/-- The delimiter `"-" * 50` printed around the results block (lines 78
and 82). -/
def delimLine : String :=
  "--------------------------------------------------"

/-- The lines printed by the `try` block of `__main__` (lines 59-87) for
a resolved target path `p`: run `calculate_average_file_size`; on
success print the no-files line when the average equals `0.0`, else the
results block; a `FileNotFoundError` or `NotADirectoryError` is caught
and printed as `"\nExecution failed: ..."`; any other exception is
caught by the catch-all and printed as `"\nAn unexpected error
occurred: ..."`.  (Resolution of `sys.argv` to the target path happens
before this block and is not modelled.) -/
def mainOutput (t : PathTarget) (p : String) : List String :=
  match calculate_average_file_size t p with
  | .ok avg =>
    if avg = 0 then [noFilesLine p]
    else [delimLine,
          "Results for directory: " ++ p,
          "Average File Size (Bytes): " ++ commaFixed2 avg ++ " B",
          "Average File Size (Formatted): " ++ format_size avg,
          delimLine]
  | .error (.fileNotFoundError m) => ["\nExecution failed: " ++ m]
  | .error (.notADirectoryError m) => ["\nExecution failed: " ++ m]
  | .error (.osError m) => ["\nAn unexpected error occurred: " ++ m]

/-- The script's exit status: every exception the `try` block can raise
is caught by one of the two `except` clauses, the script never calls
`sys.exit`, and execution falls off the end of the module, so the
process always exits with status 0. -/
def mainExitCode (_ : PathTarget) (_ : String) : Nat := 0

/-! ### Derived notions used to state the claims -/

/-- The boolean value `Path.is_file()` returns on an entry whose stat
does not raise: `True` exactly for regular files and symlinks resolving
to regular files. -/
def isFileBool : FSEntry → Bool
  | .file _ => true
  | .linkToFile _ => true
  | _ => false

/-- Whether stat-ing the entry does not raise a non-ignored error (the
only situation in which the accumulation loop can raise). -/
def statOk : FSEntry → Bool
  | .statPermDenied _ => false
  | _ => true

/-- The sizes contributed to the accumulator by a list of globbed
entries: one `st_size` per entry classified as a file by `is_file`. -/
def sizesOf (L : List FSEntry) : List Nat :=
  L.filterMap fun e => if isFileBool e then some (st_size e) else none

/-- Modelled from the spec's amended classification policy: the sizes
the traversal counts below a directory with the given children — each
regular file and each symlink resolving to a regular file contributes
its (target's) size, real readable directories are descended into but
contribute no size themselves, and unreadable directories, symlinked
directories, broken links, sockets/devices and stat-failing entries
contribute nothing. -/
def countedSizes : List FSEntry → List Nat
  | [] => []
  | .file s :: es => s :: countedSizes es
  | .linkToFile s :: es => s :: countedSizes es
  | .dir true cs :: es => countedSizes cs ++ countedSizes es
  | _ :: es => countedSizes es

/-- The sizes of the regular files anywhere below a directory with the
given children (the spec's glossary notion: symlinks are not regular
files; every real directory is part of the subtree). -/
def regSizes : List FSEntry → List Nat
  | [] => []
  | .file s :: es => s :: regSizes es
  | .dir _ cs :: es => regSizes cs ++ regSizes es
  | _ :: es => regSizes es

/-- A subtree made only of regular files and readable real directories:
the nominal situation the spec's functional claims quantify over (no
symlinks, no special files, no stat failures, no unreadable
directories). -/
def plainTree : List FSEntry → Bool
  | [] => true
  | .file _ :: es => plainTree es
  | .dir true cs :: es => plainTree cs && plainTree es
  | _ :: _ => false

/-- A subtree that is empty or contains only subdirectories and special
entries — the scope of the spec's empty-directory claim. -/
def noFilesTree : List FSEntry → Bool
  | [] => true
  | .dir _ cs :: es => noFilesTree cs && noFilesTree es
  | .special :: es => noFilesTree es
  | _ :: _ => false

/-- Modelled from the spec's words for `format_size`: the index of the
largest unit of the sequence `B, KB, MB, GB, TB` such that the scaled
value is less than 1024, capped at `TB` (index 4). -/
def unitIndexSpec (x : Rat) : Nat :=
  if x < 1024 then 0
  else if x < 1024 ^ 2 then 1
  else if x < 1024 ^ 3 then 2
  else if x < 1024 ^ 4 then 3
  else 4

/-- The single line `__main__` prints when `calculate_average_file_size`
raises: the two path errors are rendered by the first `except` clause,
anything else by the catch-all with the generic prefix. -/
def errLine : PyErr → String
  | .fileNotFoundError m => "\nExecution failed: " ++ m
  | .notADirectoryError m => "\nExecution failed: " ++ m
  | .osError m => "\nAn unexpected error occurred: " ++ m

/-! ### Lemmas about the traversal -/

/-- On an entry whose stat does not raise, `is_file` returns the boolean
classification. -/
theorem is_file_eq_ok (e : FSEntry) (h : statOk e = true) :
    is_file e = .ok (isFileBool e) := by
  cases e <;> simp_all [is_file, isFileBool, statOk]

/-- The accumulation loop over a list of entries none of which raises:
it returns the running totals extended by the sum and the number of the
sizes the classification selects. -/
theorem accumLoop_eq (L : List FSEntry) :
    ∀ t c, (∀ e ∈ L, statOk e = true) →
      accumLoop t c L = .ok (t + (sizesOf L).sum, c + (sizesOf L).length) := by
  induction L with
  | nil => intro t c _; simp [accumLoop, sizesOf]
  | cons e es ih =>
    intro t c h
    have he : statOk e = true := h e (List.mem_cons_self e es)
    have hes : ∀ x ∈ es, statOk x = true := fun x hx => h x (List.mem_cons_of_mem e hx)
    rw [accumLoop, is_file_eq_ok e he]
    cases hb : isFileBool e <;>
      simp [ih _ _ hes, sizesOf, hb, Nat.add_assoc, Nat.add_comm, Nat.add_left_comm]

/-- The accumulation loop either succeeds or fails with an `OSError`:
it can never produce a `FileNotFoundError` or `NotADirectoryError`. -/
theorem accumLoop_shape (L : List FSEntry) :
    ∀ t c, (∃ x, accumLoop t c L = .ok x) ∨
      (∃ m, accumLoop t c L = .error (.osError m)) := by
  induction L with
  | nil => intro t c; exact .inl ⟨_, rfl⟩
  | cons e es ih =>
    intro t c
    cases e <;> simp only [accumLoop, is_file] <;> first
      | exact ih _ _
      | exact .inr ⟨_, rfl⟩

/-- Unfolding `sizesOf` over a head entry. -/
theorem sizesOf_cons (e : FSEntry) (L : List FSEntry) :
    sizesOf (e :: L) =
      if isFileBool e then st_size e :: sizesOf L else sizesOf L := by
  simp only [sizesOf, List.filterMap_cons]
  cases isFileBool e <;> simp

/-- `sizesOf` distributes over list append. -/
theorem sizesOf_append (L₁ L₂ : List FSEntry) :
    sizesOf (L₁ ++ L₂) = sizesOf L₁ ++ sizesOf L₂ := by
  simp [sizesOf]

/-- The glob of a subtree yields, as contributions to the accumulator,
exactly the sizes of the amended classification policy. -/
theorem sizesOf_globList : (es : List FSEntry) →
    sizesOf (globList es) = countedSizes es
  | [] => by simp [globList, countedSizes, sizesOf]
  | .file s :: es => by
    simpa [globList, countedSizes, sizesOf_cons, isFileBool, st_size]
      using sizesOf_globList es
  | .linkToFile s :: es => by
    simpa [globList, countedSizes, sizesOf_cons, isFileBool, st_size]
      using sizesOf_globList es
  | .dir true cs :: es => by
    have h1 := sizesOf_globList cs
    have h2 := sizesOf_globList es
    simp [globList, countedSizes, sizesOf_cons, sizesOf_append, isFileBool, h1, h2]
  | .dir false cs :: es => by
    simpa [globList, countedSizes, sizesOf_cons, isFileBool]
      using sizesOf_globList es
  | .linkToDir cs :: es => by
    simpa [globList, countedSizes, sizesOf_cons, isFileBool]
      using sizesOf_globList es
  | .brokenLink :: es => by
    simpa [globList, countedSizes, sizesOf_cons, isFileBool]
      using sizesOf_globList es
  | .special :: es => by
    simpa [globList, countedSizes, sizesOf_cons, isFileBool]
      using sizesOf_globList es
  | .statPermDenied m :: es => by
    simpa [globList, countedSizes, sizesOf_cons, isFileBool]
      using sizesOf_globList es

/-- In a plain subtree (files and readable directories only), no globbed
entry can make `is_file` raise. -/
theorem plainTree_statOk : (es : List FSEntry) → plainTree es = true →
    ∀ e ∈ globList es, statOk e = true
  | [] => by simp [globList]
  | .file s :: es => by
    intro h e he
    have hes : plainTree es = true := by simpa [plainTree] using h
    rcases (by simpa [globList] using he : e = .file s ∨ e ∈ globList es) with rfl | he
    · rfl
    · exact plainTree_statOk es hes e he
  | .dir true cs :: es => by
    intro h e he
    have hcs : plainTree cs = true ∧ plainTree es = true := by
      simpa [plainTree] using h
    rcases (by simpa [globList] using he :
        e = .dir true cs ∨ e ∈ globList cs ∨ e ∈ globList es) with rfl | he | he
    · rfl
    · exact plainTree_statOk cs hcs.1 e he
    · exact plainTree_statOk es hcs.2 e he
  | .dir false cs :: es => by intro h; simp [plainTree] at h
  | .linkToFile s :: es => by intro h; simp [plainTree] at h
  | .linkToDir cs :: es => by intro h; simp [plainTree] at h
  | .brokenLink :: es => by intro h; simp [plainTree] at h
  | .special :: es => by intro h; simp [plainTree] at h
  | .statPermDenied m :: es => by intro h; simp [plainTree] at h

/-- In a plain subtree the entries the traversal counts are exactly the
regular files of the subtree. -/
theorem plainTree_counted : (es : List FSEntry) → plainTree es = true →
    countedSizes es = regSizes es
  | [] => by simp [countedSizes, regSizes]
  | .file s :: es => by
    intro h
    have hes : plainTree es = true := by simpa [plainTree] using h
    simp [countedSizes, regSizes, plainTree_counted es hes]
  | .dir true cs :: es => by
    intro h
    have hcs : plainTree cs = true ∧ plainTree es = true := by
      simpa [plainTree] using h
    simp [countedSizes, regSizes, plainTree_counted cs hcs.1,
      plainTree_counted es hcs.2]
  | .dir false cs :: es => by intro h; simp [plainTree] at h
  | .linkToFile s :: es => by intro h; simp [plainTree] at h
  | .linkToDir cs :: es => by intro h; simp [plainTree] at h
  | .brokenLink :: es => by intro h; simp [plainTree] at h
  | .special :: es => by intro h; simp [plainTree] at h
  | .statPermDenied m :: es => by intro h; simp [plainTree] at h

/-- In a subtree of only subdirectories and special entries, no globbed
entry can make `is_file` raise. -/
theorem noFilesTree_statOk : (es : List FSEntry) → noFilesTree es = true →
    ∀ e ∈ globList es, statOk e = true
  | [] => by simp [globList]
  | .dir true cs :: es => by
    intro h e he
    have hcs : noFilesTree cs = true ∧ noFilesTree es = true := by
      simpa [noFilesTree] using h
    rcases (by simpa [globList] using he :
        e = .dir true cs ∨ e ∈ globList cs ∨ e ∈ globList es) with rfl | he | he
    · rfl
    · exact noFilesTree_statOk cs hcs.1 e he
    · exact noFilesTree_statOk es hcs.2 e he
  | .dir false cs :: es => by
    intro h e he
    have hcs : noFilesTree cs = true ∧ noFilesTree es = true := by
      simpa [noFilesTree] using h
    rcases (by simpa [globList] using he :
        e = .dir false cs ∨ e ∈ globList es) with rfl | he
    · rfl
    · exact noFilesTree_statOk es hcs.2 e he
  | .special :: es => by
    intro h e he
    have hes : noFilesTree es = true := by simpa [noFilesTree] using h
    rcases (by simpa [globList] using he :
        e = .special ∨ e ∈ globList es) with rfl | he
    · rfl
    · exact noFilesTree_statOk es hes e he
  | .file s :: es => by intro h; simp [noFilesTree] at h
  | .linkToFile s :: es => by intro h; simp [noFilesTree] at h
  | .linkToDir cs :: es => by intro h; simp [noFilesTree] at h
  | .brokenLink :: es => by intro h; simp [noFilesTree] at h
  | .statPermDenied m :: es => by intro h; simp [noFilesTree] at h

/-- A subtree of only subdirectories and special entries contributes no
counted size at all. -/
theorem noFilesTree_counted : (es : List FSEntry) → noFilesTree es = true →
    countedSizes es = []
  | [] => by simp [countedSizes]
  | .dir true cs :: es => by
    intro h
    have hcs : noFilesTree cs = true ∧ noFilesTree es = true := by
      simpa [noFilesTree] using h
    simp [countedSizes, noFilesTree_counted cs hcs.1, noFilesTree_counted es hcs.2]
  | .dir false cs :: es => by
    intro h
    have hcs : noFilesTree cs = true ∧ noFilesTree es = true := by
      simpa [noFilesTree] using h
    simp [countedSizes, noFilesTree_counted es hcs.2]
  | .special :: es => by
    intro h
    have hes : noFilesTree es = true := by simpa [noFilesTree] using h
    simp [countedSizes, noFilesTree_counted es hes]
  | .file s :: es => by intro h; simp [noFilesTree] at h
  | .linkToFile s :: es => by intro h; simp [noFilesTree] at h
  | .linkToDir cs :: es => by intro h; simp [noFilesTree] at h
  | .brokenLink :: es => by intro h; simp [noFilesTree] at h
  | .statPermDenied m :: es => by intro h; simp [noFilesTree] at h

/-- On a readable directory none of whose globbed entries raises,
`calculate_average_file_size` returns the average prescribed by the
amended classification policy: `0` when nothing is counted, else the
sum of the counted sizes divided (once, as rationals) by their
number. -/
theorem calc_dir_eq (cs : List FSEntry) (p : String)
    (h : ∀ e ∈ globList cs, statOk e = true) :
    calculate_average_file_size (.directory true cs) p =
      .ok (if (countedSizes cs).length = 0 then 0
           else ((countedSizes cs).sum : Rat) / ((countedSizes cs).length : Rat)) := by
  have := accumLoop_eq (globList cs) 0 0 h
  simp only [calculate_average_file_size, topGlob, if_pos, accumulate, this,
    Nat.zero_add, sizesOf_globList]

/-! ### Lemmas about `format_size` -/

/-- The scaling loop of `format_size`, run with fuel 4 from unit index 0,
ends at the unit index prescribed by the spec's unit-selection rule,
having divided the value by `1024` that many times. -/
theorem fsLoop_eq (x : Rat) :
    fsLoop 4 x 0 = (x / 1024 ^ unitIndexSpec x, unitIndexSpec x) := by
  have p1 : (0:ℚ) < 1024 := by norm_num
  have hq2 : (1024:ℚ) * 1024 = 1024 ^ 2 := by norm_num
  have hq3 : (1024:ℚ) ^ 2 * 1024 = 1024 ^ 3 := by norm_num
  have hq4 : (1024:ℚ) ^ 3 * 1024 = 1024 ^ 4 := by norm_num
  by_cases h0 : x < 1024
  · simp [fsLoop, unitIndexSpec, h0, not_le.2 h0]
  simp only [not_lt] at h0
  by_cases h1 : x < 1024 ^ 2
  · have hb : x / 1024 < 1024 := by
      rw [div_lt_iff₀ p1]; norm_num at h1 ⊢; linarith
    simp [fsLoop, unitIndexSpec, not_lt.2 h0, h1, h0, not_le.2 hb]
  simp only [not_lt] at h1
  by_cases h2 : x < 1024 ^ 3
  · have hb1 : (1024:ℚ) ≤ x / 1024 := by
      rw [le_div_iff₀ p1]; norm_num at h1 ⊢; linarith
    have hb2 : x / 1024 ^ 2 < 1024 := by
      rw [div_lt_iff₀ (by norm_num : (0:ℚ) < 1024 ^ 2)]
      norm_num at h2 ⊢; linarith
    simp [fsLoop, unitIndexSpec, not_lt.2 h0, not_lt.2 h1, h2, h0, hb1,
      div_div, hq2, not_le.2 hb2]
  simp only [not_lt] at h2
  by_cases h3 : x < 1024 ^ 4
  · have hb1 : (1024:ℚ) ≤ x / 1024 := by
      rw [le_div_iff₀ p1]; norm_num at h1 ⊢; linarith
    have hb2 : (1024:ℚ) ≤ x / 1024 ^ 2 := by
      rw [le_div_iff₀ (by norm_num : (0:ℚ) < 1024 ^ 2)]
      norm_num at h2 ⊢; linarith
    have hb3 : x / 1024 ^ 3 < 1024 := by
      rw [div_lt_iff₀ (by norm_num : (0:ℚ) < 1024 ^ 3)]
      norm_num at h3 ⊢; linarith
    simp [fsLoop, unitIndexSpec, not_lt.2 h0, not_lt.2 h1, not_lt.2 h2, h3,
      h0, hb1, hb2, div_div, hq2, hq3, not_le.2 hb3]
  simp only [not_lt] at h3
  have hb1 : (1024:ℚ) ≤ x / 1024 := by
    rw [le_div_iff₀ p1]; norm_num at h1 ⊢; linarith
  have hb2 : (1024:ℚ) ≤ x / 1024 ^ 2 := by
    rw [le_div_iff₀ (by norm_num : (0:ℚ) < 1024 ^ 2)]
    norm_num at h2 ⊢; linarith
  have hb3 : (1024:ℚ) ≤ x / 1024 ^ 3 := by
    rw [le_div_iff₀ (by norm_num : (0:ℚ) < 1024 ^ 3)]
    norm_num at h3 ⊢; linarith
  simp [fsLoop, unitIndexSpec, not_lt.2 h0, not_lt.2 h1, not_lt.2 h2,
    not_lt.2 h3, h0, hb1, hb2, hb3, div_div, hq2, hq3, hq4]

/-- `ratFloor` of an integer is that integer. -/
theorem ratFloor_intCast (m : Int) : ratFloor ((m : Rat)) = m := by
  simp [ratFloor, Rat.num_intCast, Rat.den_intCast]

/-- Rounding an integer value to the nearest integer is the identity. -/
theorem roundHalfEven_intCast (m : Int) : roundHalfEven ((m : Rat)) = m := by
  simp only [roundHalfEven, ratFloor_intCast, sub_self]
  norm_num

/-- Fixed-point rendering of a whole number of bytes: the number
followed by `".00"`. -/
theorem formatFixed2_nat (n : Nat) :
    formatFixed2 ((n : Rat)) = toString n ++ "." ++ "00" := by
  have hcast : ((n : Rat)) * 100 = (((n * 100 : Nat) : Int) : Rat) := by
    push_cast; ring
  have hround : roundHalfEven (((n : Rat)) * 100) = ((n * 100 : Nat) : Int) := by
    rw [hcast, roundHalfEven_intCast]
  have hns : ¬(((n * 100 : Nat) : Int) < 0) :=
    not_lt.2 (Int.natCast_nonneg _)
  have hdiv : n * 100 / 100 = n := Nat.mul_div_cancel n (by norm_num)
  have hmod : n * 100 % 100 = 0 := Nat.mul_mod_left n 100
  have hpad : pad2 0 = "00" := rfl
  simp only [formatFixed2, hround, if_neg hns, Int.natAbs_ofNat, hdiv, hmod, hpad]

/-- Equation form of `format_size`: scale by the spec's unit index, then
render. -/
theorem format_size_eq (x : Rat) :
    format_size x =
      formatFixed2 (x / 1024 ^ unitIndexSpec x) ++ " " ++ unitName (unitIndexSpec x) := by
  simp only [format_size, fsLoop_eq]

/-- Concrete evaluation scheme for `format_size` at whole-valued
results. -/
theorem format_size_nat_val (x : Rat) (n u : Nat)
    (h1 : unitIndexSpec x = u) (h2 : x / 1024 ^ u = (n : Rat)) :
    format_size x = toString n ++ "." ++ "00" ++ " " ++ unitName u := by
  rw [format_size_eq, h1, h2, formatFixed2_nat]

/-! ### The claims -/

/-- C1: for a directory whose subtree consists of regular files and
readable subdirectories and contains `N ≥ 1` regular files of sizes
`s₁..sₙ` (at any depth, including directly in the top directory),
`calculate_average_file_size` returns the arithmetic mean
`(s₁+...+sₙ)/N`, as a single division of the integer sum by the integer
count performed once at the end, files at every depth weighted
identically. -/
theorem C1_average_is_mean (cs : List FSEntry) (p : String)
    (hplain : plainTree cs = true) (hne : regSizes cs ≠ []) :
    calculate_average_file_size (.directory true cs) p =
      .ok (((regSizes cs).sum : Rat) / ((regSizes cs).length : Rat)) := by
  have hstat := plainTree_statOk cs hplain
  have hcnt := plainTree_counted cs hplain
  rw [calc_dir_eq cs p hstat, hcnt]
  have hlen : (regSizes cs).length ≠ 0 := by
    simpa [List.length_eq_zero] using hne
  rw [if_neg hlen]

/-- C1 witness: a directory with a top-level file of size 3 and a file
of size 5 one level down averages to 4. -/
theorem C1_average_is_mean_witness :
    calculate_average_file_size
      (.directory true [.file 3, .dir true [.file 5]]) "d" = .ok 4 := by
  rw [C1_average_is_mean [.file 3, .dir true [.file 5]] "d"
    (by simp [plainTree]) (by simp [regSizes])]
  norm_num [regSizes]

/-- C2 counterexample: a directory containing one symbolic link to a
regular file of size 5 — the claim says symlinks are excluded from sum
and count, which would give average 0.0, but the code counts the link
(`Path.is_file` follows symlinks) and returns 5.0. -/
theorem C2_symlink_counted_cex :
    calculate_average_file_size (.directory true [.linkToFile 5]) "d" = .ok 5 ∧
      (5 : Rat) ≠ 0 := by
  constructor
  · rw [calc_dir_eq [.linkToFile 5] "d" (by simp [globList, statOk])]
    norm_num [countedSizes]
  · norm_num

/-- C2 amended: entries for which `Path.is_file()` is true — regular
files and symlinks resolving to regular files — contribute their size
to the sum and 1 to the count; real readable directories contribute
nothing but are descended into; unreadable directories, symlinked
directories, broken links and special files contribute nothing (and
symlinked directories are not descended into). -/
theorem C2_classification :
    (∀ (cs : List FSEntry) (p : String), (∀ e ∈ globList cs, statOk e = true) →
      calculate_average_file_size (.directory true cs) p =
        .ok (if (countedSizes cs).length = 0 then 0
             else ((countedSizes cs).sum : Rat) / ((countedSizes cs).length : Rat))) ∧
    (∀ s, countedSizes [.file s] = [s]) ∧
    (∀ s, countedSizes [.linkToFile s] = [s]) ∧
    (∀ cs, countedSizes [.dir true cs] = countedSizes cs) ∧
    (∀ cs, countedSizes [.dir false cs] = []) ∧
    (∀ cs, countedSizes [.linkToDir cs] = []) ∧
    countedSizes [.special] = [] ∧
    countedSizes [.brokenLink] = [] := by
  refine ⟨calc_dir_eq, ?_, ?_, ?_, ?_, ?_, ?_, ?_⟩ <;>
    simp [countedSizes]

/-- C2 amended witness: one entry of each kind — the regular file
(10), the symlink to a file (20) and the file in a subdirectory (30)
are counted; the special file, the symlinked directory and its target
content are not; the average is 60/3 = 20. -/
theorem C2_classification_witness :
    calculate_average_file_size
      (.directory true
        [.file 10, .linkToFile 20, .special, .linkToDir [.file 100],
         .dir true [.file 30]]) "d" = .ok 20 := by
  have hc : countedSizes
      [.file 10, .linkToFile 20, .special, .linkToDir [.file 100],
       .dir true [.file 30]] = [10, 20, 30] := by
    simp [countedSizes]
  rw [C2_classification.1 _ "d" (by simp [globList, statOk]), hc]
  norm_num

/-- C3 counterexample: a per-entry stat failure with a permission error
is not skipped — `Path.is_file` re-raises it, the traversal aborts and
the call fails (the CLI reports it through the catch-all), contradicting
"the traversal continues, the call does not fail". -/
theorem C3_stat_error_fatal_cex :
    calculate_average_file_size
        (.directory true [.statPermDenied "stat: Permission denied"]) "d" =
      .error (.osError "stat: Permission denied") ∧
    mainOutput (.directory true [.statPermDenied "stat: Permission denied"]) "d" =
      ["\nAn unexpected error occurred: stat: Permission denied"] := by
  have h : calculate_average_file_size
      (.directory true [.statPermDenied "stat: Permission denied"]) "d" =
      .error (.osError "stat: Permission denied") := by
    simp [calculate_average_file_size, topGlob, accumulate, accumLoop,
      globList, is_file]
  exact ⟨h, by simp [mainOutput, h]⟩

/-- C3 amended: failures to list a subdirectory (unreadable directory:
its contents are silently skipped while the directory entry itself is
still seen) and per-entry stat failures of the ignored-errno class
(broken link, entry deleted mid-walk) only skip the affected entries:
the traversal continues and the result equals that of the tree without
them.  (Per-entry stat failures with a permission error, by contrast,
abort the call — see the counterexample.) -/
theorem C3_skipped_entries (cs ds : List FSEntry) (p : String) :
    calculate_average_file_size
        (.directory true (.dir false ds :: .brokenLink :: cs)) p =
      calculate_average_file_size (.directory true cs) p := by
  have hg : globList (.dir false ds :: .brokenLink :: cs) =
      .dir false ds :: .brokenLink :: globList cs := by
    simp [globList]
  simp [calculate_average_file_size, topGlob, accumulate, hg, accumLoop, is_file]

/-- C4: the code never validates top-level readability — an existing
directory that is not readable does not raise `PermissionError`;
`glob` swallows the error, finds nothing, and the function returns 0.0,
so the CLI claims the directory contains no files. -/
theorem C4_unreadable_dir_returns_zero :
    (∀ (cs : List FSEntry) (p : String),
      calculate_average_file_size (.directory false cs) p = .ok 0) ∧
    mainOutput (.directory false [.file 5]) "/secret" = [noFilesLine "/secret"] := by
  constructor
  · intro cs p
    simp [calculate_average_file_size, topGlob, accumulate, accumLoop]
  · simp [mainOutput, calculate_average_file_size, topGlob, accumulate, accumLoop]

/-- C5: `FileNotFoundError` is raised exactly for nonexistent paths,
with the path embedded in the message; `NotADirectoryError` exactly for
existing non-directory paths; both before any traversal (a traversal
failure can only surface as an `OSError`, never as one of these two). -/
theorem C5_validation_errors (t : PathTarget) (p : String) :
    ((∃ m, calculate_average_file_size t p = .error (.fileNotFoundError m)) ↔
      t = .nonexistent) ∧
    ((∃ m, calculate_average_file_size t p = .error (.notADirectoryError m)) ↔
      t = .nondirectory) ∧
    calculate_average_file_size .nonexistent p =
      .error (.fileNotFoundError (notFoundMsg p)) ∧
    calculate_average_file_size .nondirectory p =
      .error (.notADirectoryError (notDirMsg p)) ∧
    (∃ a b, notFoundMsg p = a ++ p ++ b) := by
  refine ⟨⟨?_, ?_⟩, ⟨?_, ?_⟩, rfl, rfl,
    ⟨"Error: Directory not found at '", "'", rfl⟩⟩
  · rintro ⟨m, hm⟩
    cases t with
    | nonexistent => rfl
    | nondirectory => simp [calculate_average_file_size] at hm
    | directory r cs =>
      rcases accumLoop_shape (topGlob r cs) 0 0 with ⟨⟨ts, fc⟩, hx⟩ | ⟨mm, hx⟩ <;>
        simp [calculate_average_file_size, accumulate, hx] at hm
  · rintro rfl; exact ⟨_, rfl⟩
  · rintro ⟨m, hm⟩
    cases t with
    | nondirectory => rfl
    | nonexistent => simp [calculate_average_file_size] at hm
    | directory r cs =>
      rcases accumLoop_shape (topGlob r cs) 0 0 with ⟨⟨ts, fc⟩, hx⟩ | ⟨mm, hx⟩ <;>
        simp [calculate_average_file_size, accumulate, hx] at hm
  · rintro rfl; exact ⟨_, rfl⟩

/-- C6: a directory whose subtree is empty or holds only subdirectories
(readable or not) and special entries yields average 0.0 — not an
error — and the CLI prints the single "contains no files" line. -/
theorem C6_no_files (r : Bool) (cs : List FSEntry) (p : String)
    (h : noFilesTree cs = true) :
    calculate_average_file_size (.directory r cs) p = .ok 0 ∧
    mainOutput (.directory r cs) p = [noFilesLine p] := by
  have hcalc : calculate_average_file_size (.directory r cs) p = .ok 0 := by
    cases r with
    | false => simp [calculate_average_file_size, topGlob, accumulate, accumLoop]
    | true =>
      rw [calc_dir_eq cs p (noFilesTree_statOk cs h), noFilesTree_counted cs h]
      simp
  exact ⟨hcalc, by simp [mainOutput, hcalc]⟩

/-- C6 witness: a directory holding an empty subdirectory and a socket
prints the no-files line. -/
theorem C6_no_files_witness :
    mainOutput (.directory true [.dir true [], .special]) "e" =
      [noFilesLine "e"] :=
  (C6_no_files true [.dir true [], .special] "e" (by simp [noFilesTree])).2

/-- C7 counterexample: at `1024^5` bytes the loop stops after four
divisions with the value 1024, so the code renders "1024.00 TB", not
the "1.00 TB" the claim asserts. -/
theorem C7_cap_value_cex :
    format_size ((1024 : Rat) ^ 5) = "1024.00 TB" ∧
      "1024.00 TB" ≠ "1.00 TB" := by
  constructor
  · rw [format_size_nat_val ((1024 : Rat) ^ 5) 1024 4
      (by norm_num [unitIndexSpec]) (by norm_num)]
    rfl
  · decide

/-- C7 amended: `format_size` divides by 1024 while the value is at
least 1024 and the unit index is not the last of `B, KB, MB, GB, TB`,
then renders the scaled value with two decimal places and the selected
unit; `format(0) = "0.00 B"`, `format(1023) = "1023.00 B"`,
`format(1024) = "1.00 KB"`, `format(1024²) = "1.00 MB"`,
`format(1024⁴) = "1.00 TB"`, and the unit is capped at TB for every
input of at least `1024⁴` — so `format(1024⁵) = "1024.00 TB"` (not
"1.00 TB": the displayed value keeps growing past 1024). -/
theorem C7_format_size :
    (∀ x : Rat, format_size x =
      formatFixed2 (x / 1024 ^ unitIndexSpec x) ++ " " ++
        unitName (unitIndexSpec x)) ∧
    format_size 0 = "0.00 B" ∧
    format_size 1023 = "1023.00 B" ∧
    format_size 1024 = "1.00 KB" ∧
    format_size ((1024 : Rat) ^ 2) = "1.00 MB" ∧
    format_size ((1024 : Rat) ^ 4) = "1.00 TB" ∧
    format_size ((1024 : Rat) ^ 5) = "1024.00 TB" ∧
    (∀ x : Rat, (1024 : Rat) ^ 4 ≤ x → unitIndexSpec x = 4) := by
  refine ⟨format_size_eq, ?_, ?_, ?_, ?_, ?_, ?_, ?_⟩
  · rw [format_size_nat_val 0 0 0 (by norm_num [unitIndexSpec]) (by norm_num)]
    rfl
  · rw [format_size_nat_val 1023 1023 0 (by norm_num [unitIndexSpec]) (by norm_num)]
    rfl
  · rw [format_size_nat_val 1024 1 1 (by norm_num [unitIndexSpec]) (by norm_num)]
    rfl
  · rw [format_size_nat_val ((1024 : Rat) ^ 2) 1 2
      (by norm_num [unitIndexSpec]) (by norm_num)]
    rfl
  · rw [format_size_nat_val ((1024 : Rat) ^ 4) 1 4
      (by norm_num [unitIndexSpec]) (by norm_num)]
    rfl
  · rw [format_size_nat_val ((1024 : Rat) ^ 5) 1024 4
      (by norm_num [unitIndexSpec]) (by norm_num)]
    rfl
  · intro x hx
    rw [unitIndexSpec]
    have h1 : ¬x < 1024 := by norm_num at hx ⊢; linarith
    have h2 : ¬x < 1024 ^ 2 := by norm_num at hx ⊢; linarith
    have h3 : ¬x < 1024 ^ 3 := by norm_num at hx ⊢; linarith
    have h4 : ¬x < 1024 ^ 4 := not_lt.2 hx
    simp [h1, h2, h3, h4]

/-- C7 witness: the loop description applied at 2048 gives "2.00 KB",
and the cap clause applied at `1024^6` selects unit index 4 (TB). -/
theorem C7_format_size_witness :
    format_size 2048 = "2.00 KB" ∧
    (1024 : Rat) ^ 4 ≤ (1024 : Rat) ^ 6 ∧
    unitIndexSpec ((1024 : Rat) ^ 6) = 4 := by
  refine ⟨?_, by norm_num,
    C7_format_size.2.2.2.2.2.2.2 ((1024 : Rat) ^ 6) (by norm_num)⟩
  rw [C7_format_size.1 2048,
    show unitIndexSpec (2048 : Rat) = 1 by norm_num [unitIndexSpec],
    show (2048 : Rat) / 1024 ^ 1 = ((2 : Nat) : Rat) by norm_num,
    formatFixed2_nat]
  rfl

/-- C8: whenever `calculate_average_file_size` raises, the CLI prints
exactly one message line (to standard output, no stack trace) and the
process exits with status 0; the two path errors are rendered by the
dedicated handler and anything else by the catch-all, whose line is the
generic "unexpected error" prefix followed by the underlying message
text. -/
theorem C8_failure_output :
    (∀ (t : PathTarget) (p : String) (e : PyErr),
      calculate_average_file_size t p = .error e → mainOutput t p = [errLine e]) ∧
    (∀ t p, mainExitCode t p = 0) ∧
    (∀ m, errLine (.osError m) = "\nAn unexpected error occurred: " ++ m) ∧
    (∀ m, errLine (.fileNotFoundError m) = "\nExecution failed: " ++ m) ∧
    (∀ m, errLine (.notADirectoryError m) = "\nExecution failed: " ++ m) := by
  refine ⟨?_, fun _ _ => rfl, fun _ => rfl, fun _ => rfl, fun _ => rfl⟩
  intro t p e h
  cases e <;> simp [mainOutput, h, errLine]

/-- C8 witness: a nonexistent path prints the single failure line. -/
theorem C8_failure_output_witness :
    mainOutput .nonexistent "nope" =
      ["\nExecution failed: Error: Directory not found at 'nope'"] := by
  rw [C8_failure_output.1 .nonexistent "nope"
    (.fileNotFoundError (notFoundMsg "nope")) rfl]
  rfl

/-- C9: a plain subtree with at least one regular file, all of size 0,
makes `calculate_average_file_size` return 0.0; the CLI, dispatching on
the returned average being 0.0 rather than on the file count, prints
the "contains no files" line — the same output as for a directory with
no files at all. -/
theorem C9_zero_size_files (cs : List FSEntry) (p : String)
    (hplain : plainTree cs = true) (_hne : regSizes cs ≠ [])
    (hzero : ∀ s ∈ regSizes cs, s = 0) :
    calculate_average_file_size (.directory true cs) p = .ok 0 ∧
    mainOutput (.directory true cs) p = [noFilesLine p] ∧
    mainOutput (.directory true cs) p = mainOutput (.directory true []) p := by
  have hsum : (regSizes cs).sum = 0 := List.sum_eq_zero hzero
  have hcalc : calculate_average_file_size (.directory true cs) p = .ok 0 := by
    rw [calc_dir_eq cs p (plainTree_statOk cs hplain), plainTree_counted cs hplain]
    by_cases hl : (regSizes cs).length = 0
    · simp [hl]
    · simp [hl, hsum]
  have hout : mainOutput (.directory true cs) p = [noFilesLine p] := by
    simp [mainOutput, hcalc]
  have hempty : mainOutput (.directory true []) p = [noFilesLine p] := by
    simp [mainOutput, calculate_average_file_size, topGlob, accumulate,
      accumLoop, globList]
  exact ⟨hcalc, hout, hout.trans hempty.symm⟩

/-- C9 witness: two empty files, one nested, print the no-files line. -/
theorem C9_zero_size_files_witness :
    mainOutput (.directory true [.file 0, .dir true [.file 0]]) "z" =
      [noFilesLine "z"] :=
  (C9_zero_size_files [.file 0, .dir true [.file 0]] "z"
    (by simp [plainTree]) (by simp [regSizes]) (by simp [regSizes])).2.1

/-- C10: the accumulation is order-independent — any two permutations
of the entry sequence produced by the traversal (none of which raises)
yield the same total, the same count, and hence the same average. -/
theorem C10_order_independent (L₁ L₂ : List FSEntry)
    (h : ∀ e ∈ L₁, statOk e = true) (hp : L₁.Perm L₂) :
    accumulate L₁ = accumulate L₂ := by
  have h₂ : ∀ e ∈ L₂, statOk e = true := fun e he => h e (hp.symm.subset he)
  rw [accumulate, accumulate, accumLoop_eq L₁ 0 0 h, accumLoop_eq L₂ 0 0 h₂]
  have hperm : (sizesOf L₁).Perm (sizesOf L₂) := hp.filterMap _
  rw [hperm.sum_eq, hperm.length_eq]

/-- C10 witness: swapping two files leaves the accumulated totals
unchanged. -/
theorem C10_order_independent_witness :
    accumulate [.file 1, .file 2] = accumulate [.file 2, .file 1] ∧
    accumulate [.file 1, .file 2] = .ok (3, 2) :=
  ⟨C10_order_independent [.file 1, .file 2] [.file 2, .file 1]
    (by simp [statOk]) (List.Perm.swap (FSEntry.file 2) (FSEntry.file 1) []),
   rfl⟩

end Avgsize
